import Mathlib

/-!
Verification of the dual-transport request routing core and the offline-first
puzzle state reconciliation of the game client.

The development shallowly embeds three JavaScript modules:
 - the native bridge (`apiBridge.request`),
 - the hybrid API client (`GameAPI.request` and its HTTP branch),
 - the puzzle manager (`PuzzleManagerAPI`: `initializePuzzles`,
   `loadPlayerPuzzles`, `checkAnswer`, `completePuzzle`, `hide`).

JavaScript's dynamic values are modelled by the inductive type `JSValue`
(numbers as integers), `JSON.stringify` and `JSON.parse` by executable
functions over that type, and the external collaborators (the native bridge
object, the HTTP backend, `localStorage`) by explicit oracle inputs.
-/

/-- A JavaScript runtime value, as far as the embedded modules inspect one.
Numbers are modelled as integers; `Error` objects keep only their message. -/
inductive JSValue where
  | vNull
  | vUndefined
  | vBool (b : Bool)
  | vNum (n : Int)
  | vStr (s : String)
  | vArr (elems : List JSValue)
  | vObj (fields : List (String × JSValue))
  | vError (message : String)
deriving Repr

/-- JavaScript truthiness (`if (x)`): null, undefined, false, 0 and the empty
string are falsy; every object (arrays and Error objects included) is truthy. -/
def jsTruthy : JSValue → Bool
  | .vNull => false
  | .vUndefined => false
  | .vBool b => b
  | .vNum n => n != 0
  | .vStr s => s != ""
  | .vArr _ => true
  | .vObj _ => true
  | .vError _ => true

/-- The test `typeof arg === 'object' && arg !== null` from the bridge:
true exactly for genuine objects (arrays, plain objects, Error objects). -/
def isObjectNonNull : JSValue → Bool
  | .vArr _ => true
  | .vObj _ => true
  | .vError _ => true
  | _ => false

/-- Property lookup `v.key`: `undefined` when absent or not an object. -/
def jsGetField : JSValue → String → JSValue
  | .vObj fields, key =>
      match fields.find? (fun f => f.1 == key) with
      | some f => f.2
      | none => .vUndefined
  | _, _ => .vUndefined

/-- The `Array.isArray` test. -/
def jsIsArray : JSValue → Bool
  | .vArr _ => true
  | _ => false

/-- The element list of an array value (only ever used after `jsIsArray`). -/
def jsAsArray : JSValue → List JSValue
  | .vArr l => l
  | _ => []

/-- Escape one character for a JSON string literal. -/
def jsonEscapeChar (c : Char) : String :=
  if c = '"' then "\\\""
  else if c = '\\' then "\\\\"
  else if c = '\n' then "\\n"
  else if c = '\t' then "\\t"
  else if c = '\r' then "\\r"
  else String.mk [c]

/-- A JSON string literal for `s`. -/
def jsonQuote (s : String) : String :=
  "\"" ++ String.join (s.toList.map jsonEscapeChar) ++ "\""

mutual

/-- `JSON.stringify`. Fields holding `undefined` are omitted, `undefined`
array elements serialize as `null`, and an `Error` object serializes as the
empty object, as in JavaScript. -/
def jsonStringify : JSValue → String
  | .vNull => "null"
  | .vUndefined => "null"
  | .vBool b => if b then "true" else "false"
  | .vNum n => toString n
  | .vStr s => jsonQuote s
  | .vArr elems => "[" ++ jsonStringifyElems elems ++ "]"
  | .vObj fields => "\x7b" ++ jsonStringifyMembers fields ++ "\x7d"
  | .vError _ => "\x7b\x7d"

/-- Comma-separated serialization of array elements. -/
def jsonStringifyElems : List JSValue → String
  | [] => ""
  | [v] => jsonStringify v
  | v :: rest => jsonStringify v ++ "," ++ jsonStringifyElems rest

/-- Comma-separated serialization of object members; a member holding
`undefined` is omitted, as `JSON.stringify` omits it. -/
def jsonStringifyMembers : List (String × JSValue) → String
  | [] => ""
  | (_, .vUndefined) :: rest => jsonStringifyMembers rest
  | (k, v) :: rest =>
      let entry := jsonQuote k ++ ":" ++ jsonStringify v
      let restStr := jsonStringifyMembers rest
      if restStr = "" then entry else entry ++ "," ++ restStr

end

mutual

/-- String coercion `String(v)`, used by `JSON.parse` on a non-string input. -/
def jsToString : JSValue → String
  | .vNull => "null"
  | .vUndefined => "undefined"
  | .vBool b => if b then "true" else "false"
  | .vNum n => toString n
  | .vStr s => s
  | .vArr elems => jsArrToString elems
  | .vObj _ => "[object Object]"
  | .vError m => "Error: " ++ m

/-- `Array.prototype.toString`: elements joined by commas. -/
def jsArrToString : List JSValue → String
  | [] => ""
  | [v] => jsToString v
  | v :: rest => jsToString v ++ "," ++ jsArrToString rest

end

/-- Drop leading JSON whitespace. -/
def skipWs : List Char → List Char
  | c :: rest =>
      if c = ' ' || c = '\n' || c = '\t' || c = '\r' then skipWs rest
      else c :: rest
  | [] => []

/-- Decode one escaped character of a JSON string body. -/
def jsonUnescape (c : Char) : Char :=
  if c = 'n' then '\n'
  else if c = 't' then '\t'
  else if c = 'r' then '\r'
  else c

/-- Parse the body of a JSON string after its opening quote; returns the
decoded characters and the remaining input. -/
def parseStringChars : List Char → Option (List Char × List Char)
  | [] => none
  | c :: rest =>
      if c = '"' then some ([], rest)
      else if c = '\\' then
        match rest with
        | [] => none
        | e :: rest2 =>
            match parseStringChars rest2 with
            | some (cs, r) => some (jsonUnescape e :: cs, r)
            | none => none
      else
        match parseStringChars rest with
        | some (cs, r) => some (c :: cs, r)
        | none => none

/-- Split leading decimal digits from the input. -/
def parseDigits : List Char → (List Char × List Char)
  | c :: rest =>
      if c.isDigit then
        let (ds, r) := parseDigits rest
        (c :: ds, r)
      else ([], c :: rest)
  | [] => ([], [])

/-- Numeric value of a digit list. -/
def digitsToNat (ds : List Char) : Nat :=
  ds.foldl (fun acc c => acc * 10 + (c.toNat - 48)) 0

mutual

/-- Parse one JSON value (numbers restricted to integers); fuel-indexed
recursive descent. Returns the value and the remaining input. -/
def parseJsonValue : Nat → List Char → Option (JSValue × List Char)
  | 0, _ => none
  | fuel + 1, input =>
      match skipWs input with
      | [] => none
      | c :: rest =>
          if c = '"' then
            match parseStringChars rest with
            | some (cs, r) => some (.vStr (String.mk cs), r)
            | none => none
          else if c = '[' then
            match skipWs rest with
            | ']' :: r => some (.vArr [], r)
            | r =>
                match parseJsonItems fuel r with
                | some (vs, r2) => some (.vArr vs, r2)
                | none => none
          else if c = '\x7b' then
            match skipWs rest with
            | '\x7d' :: r => some (.vObj [], r)
            | r =>
                match parseJsonMembers fuel r with
                | some (ms, r2) => some (.vObj ms, r2)
                | none => none
          else if c = '-' then
            match parseDigits rest with
            | ([], _) => none
            | (ds, r) => some (.vNum (-(digitsToNat ds : Int)), r)
          else if c.isDigit then
            match parseDigits (c :: rest) with
            | (ds, r) => some (.vNum (digitsToNat ds : Int), r)
          else
            match c :: rest with
            | 'n' :: 'u' :: 'l' :: 'l' :: r => some (.vNull, r)
            | 't' :: 'r' :: 'u' :: 'e' :: r => some (.vBool true, r)
            | 'f' :: 'a' :: 'l' :: 's' :: 'e' :: r => some (.vBool false, r)
            | _ => none

/-- Parse `v (, v)* ]`, the non-empty tail of a JSON array. -/
def parseJsonItems : Nat → List Char → Option (List JSValue × List Char)
  | 0, _ => none
  | fuel + 1, input =>
      match parseJsonValue fuel input with
      | none => none
      | some (v, r) =>
          match skipWs r with
          | ',' :: r2 =>
              match parseJsonItems fuel r2 with
              | some (vs, r3) => some (v :: vs, r3)
              | none => none
          | ']' :: r2 => some ([v], r2)
          | _ => none

/-- Parse `"k": v (, "k": v)* \x7d`, the non-empty tail of a JSON object. -/
def parseJsonMembers : Nat → List Char → Option (List (String × JSValue) × List Char)
  | 0, _ => none
  | fuel + 1, input =>
      match skipWs input with
      | '"' :: r =>
          match parseStringChars r with
          | none => none
          | some (key, r2) =>
              match skipWs r2 with
              | ':' :: r3 =>
                  match parseJsonValue fuel r3 with
                  | none => none
                  | some (v, r4) =>
                      match skipWs r4 with
                      | ',' :: r5 =>
                          match parseJsonMembers fuel r5 with
                          | some (ms, r6) => some ((String.mk key, v) :: ms, r6)
                          | none => none
                      | '\x7d' :: r5 => some ([(String.mk key, v)], r5)
                      | _ => none
              | _ => none
      | _ => none

end

/-- `JSON.parse` on the model: succeeds only when the whole input is one
JSON value (integers only for numbers). -/
def jsonParse (s : String) : Option JSValue :=
  match parseJsonValue (2 * s.length + 2) s.toList with
  | some (v, r) => if (skipWs r).isEmpty then some v else none
  | none => none

/-! ## The native bridge: `apiBridge.request` -/

/-- The host environment seen by `apiBridge.request`: whether `window.Android`
has been injected, and which of its members are callable functions. -/
structure BridgeEnv where
  androidPresent : Bool
  androidMethods : List String

/-- The precondition test of `apiBridge.request`:
`!window.Android || typeof window.Android[methodName] !== 'function'`. -/
def bridgeAvailable (env : BridgeEnv) (methodName : String) : Bool :=
  env.androidPresent && env.androidMethods.contains methodName

/-- The rejection message built when the bridge or the method is missing. -/
def bridgeMissingMessage (methodName : String) : String :=
  "native 브릿지(window.Android) 또는 \x27" ++ methodName ++
    "\x27 메소드를 찾을 수 없습니다. PC 웹 환경에서는 작동하지 않습니다."

/-- The global callback name minted for one call:
`__native_callback_${methodName}_${Date.now()}` with `now` standing for
`Date.now()`. -/
def bridgeCallbackName (methodName : String) (now : Nat) : String :=
  "__native_callback_" ++ methodName ++ "_" ++ toString now

/-- The per-argument serialization of `apiBridge.request`: an object argument
becomes its `JSON.stringify` text, anything else passes through unchanged. -/
def serializeBridgeArg (arg : JSValue) : JSValue :=
  if isObjectNonNull arg then .vStr (jsonStringify arg) else arg

/-- How the native method behaves on one invocation: it either throws
synchronously, or eventually invokes the registered callback once with
`(result, error)`. -/
inductive NativeBehavior where
  | throws (e : JSValue)
  | callsBack (result : JSValue) (error : JSValue)

/-- Settlement of the promise returned by `apiBridge.request`. -/
inductive RequestResult where
  | resolvedWith (v : JSValue)
  | rejectedWith (v : JSValue)
deriving Repr

/-- The value passed to `reject` on a native-reported error:
`JSON.parse(error)` when that parses, the raw error otherwise. -/
def nativeErrorPayload (error : JSValue) : JSValue :=
  match jsonParse (jsToString error) with
  | some parsed => parsed
  | none => error

/-- Everything observable about one `apiBridge.request` call: how the promise
settled, whether a global callback was registered during the call, how many
`delete window[callbackName]` statements ran, the global callback namespace
after the call settled, and the argument list forwarded to the native method
(`none` when the native method was never invoked). -/
structure RequestLog where
  result : RequestResult
  registered : Bool
  deleteCount : Nat
  windowAfter : List String
  forwarded : Option (List JSValue)
deriving Repr

/-- Shallow embedding of `apiBridge.request`. `window0` is the set of global
names registered before the call, `now` stands for `Date.now()`, and `native`
is the native method's behaviour for this invocation. Each branch mirrors one
control path of the source: the precondition rejection, the synchronous-throw
path (reject then delete), and the callback path (resolve or reject —
attempting to parse a truthy error as JSON — then delete). -/
def apiBridge_request (env : BridgeEnv) (native : NativeBehavior)
    (window0 : List String) (methodName : String) (args : List JSValue)
    (now : Nat) : RequestLog :=
  if bridgeAvailable env methodName = false then
    { result := .rejectedWith (.vError (bridgeMissingMessage methodName)),
      registered := false, deleteCount := 0,
      windowAfter := window0, forwarded := none }
  else
    let callbackName := bridgeCallbackName methodName now
    let window1 := callbackName :: window0
    let finalArgs := args.map serializeBridgeArg
    match native with
    | .throws e =>
        { result := .rejectedWith e,
          registered := true, deleteCount := 1,
          windowAfter := window1.filter (fun n => n != callbackName),
          forwarded := some (finalArgs ++ [.vStr callbackName]) }
    | .callsBack result error =>
        { result :=
            if jsTruthy error then .rejectedWith (nativeErrorPayload error)
            else .resolvedWith result,
          registered := true, deleteCount := 1,
          windowAfter := window1.filter (fun n => n != callbackName),
          forwarded := some (finalArgs ++ [.vStr callbackName]) }

/-! ## The hybrid API client: `GameAPI` -/

/-- The fixed base URL of the web transport. -/
def gameAPI_baseURL : String := "http://localhost:8080/api"

/-- An HTTP response as the fetch branch observes it: its status code and its
body text. -/
structure HttpResponse where
  status : Nat
  bodyText : String

/-- The `response.ok` test: status in the 200–299 range. -/
def HttpResponse.respOk (r : HttpResponse) : Bool :=
  200 ≤ r.status && r.status < 300

/-- What `fetch` did for one request: failed at the network level, or
delivered a response. -/
inductive FetchOutcome where
  | networkError (e : JSValue)
  | response (r : HttpResponse)

/-- The error message built for a non-ok response:
`HTTP error! status: ${response.status}, message: ${errorText}`. -/
def httpErrorMessage (status : Nat) (bodyText : String) : String :=
  "HTTP error! status: " ++ toString status ++ ", message: " ++ bodyText

/-- Shallow embedding of the web (fetch) branch of `GameAPI.request`: a
network-level failure propagates unchanged; a non-ok response throws an error
carrying the status code and the body text; an ok response yields its body
parsed as JSON (`response.json()` throws when the body is not JSON). -/
def gameAPI_fetchRequest (outcome : FetchOutcome) : Except JSValue JSValue :=
  match outcome with
  | .networkError e => .error e
  | .response r =>
      if r.respOk then
        match jsonParse r.bodyText with
        | some parsed => .ok parsed
        | none => .error (.vError "Unexpected token in JSON")
      else
        .error (.vError (httpErrorMessage r.status r.bodyText))

/-- Shallow embedding of the router `GameAPI.request`: `useBridge` was fixed
at construction; the bridge branch delegates to `apiBridge.request` and the
web branch to the fetch logic. -/
def gameAPI_request (useBridge : Bool) (env : BridgeEnv)
    (native : NativeBehavior) (window0 : List String) (now : Nat)
    (outcome : FetchOutcome) (bridgeMethod : String)
    (bridgeArgs : List JSValue) : Except JSValue JSValue :=
  if useBridge then
    match (apiBridge_request env native window0 bridgeMethod bridgeArgs now).result with
    | .resolvedWith v => .ok v
    | .rejectedWith v => .error v
  else
    gameAPI_fetchRequest outcome

/-- The URL composed for `getGameInfo()` on the web path:
base URL plus `/game/info`. -/
def gameAPI_getGameInfoUrl : String := gameAPI_baseURL ++ "/game/info"

/-! ## The puzzle manager: `PuzzleManagerAPI` -/

/-- `Char` lowering as `toLowerCase` applies it per character. -/
def jsCharToLower (c : Char) : Char := Char.toLower c

/-- `String.prototype.toLowerCase`, per character. -/
def jsToLowerCase (s : String) : String := String.mk (s.toList.map jsCharToLower)

/-- The whitespace class stripped by `String.prototype.trim`. -/
def jsIsSpace (c : Char) : Bool := c = ' ' || c = '\t' || c = '\n' || c = '\r'

/-- `String.prototype.trim`: strip leading and trailing whitespace. -/
def jsTrim (s : String) : String :=
  String.mk (((s.toList.dropWhile jsIsSpace).reverse.dropWhile jsIsSpace).reverse)

/-- The answer normalization of `checkAnswer`:
`this.puzzleInput.value.toLowerCase().trim()`. -/
def normalizeAnswer (s : String) : String := jsTrim (jsToLowerCase s)

/-- One call made through `gameAPI` by the puzzle manager, with the arguments
the router forwards. -/
inductive BackendCall where
  | getPlayerPuzzles (playerId : String)
  | submitPuzzleAnswer (playerId puzzleId answer : String)
  | completePuzzle (playerId puzzleId : String)
deriving Repr, DecidableEq

/-- The backend as the puzzle manager observes it through `gameAPI`: the
player identity the router scopes every call with, and the settlement of each
operation (`Except.error` is a rejected promise). -/
structure Backend where
  playerId : String
  getPlayerPuzzlesResult : Except JSValue (List JSValue)
  submitResult : String → String → Except JSValue JSValue
  completeResult : String → Except JSValue JSValue

/-- The mutable fields of `PuzzleManagerAPI` and the DOM bits its methods
assign, as far as the embedded methods touch them. -/
structure PMState where
  currentPuzzleId : Option String
  playerPuzzles : List JSValue
  puzzleInputValue : String
  puzzleContentHTML : String
  puzzleInputVisible : Bool
  submitBtnLabel : String
  modalShown : Bool
deriving Repr

/-- The world one puzzle-manager operation runs in: the instance state, the
`localStorage` entry under the key `playerPuzzles`, and the observable effects
accumulated so far — backend calls in order, user-visible error views
(`showError`), inline feedback (`showFeedback`), and `console.error` count. -/
structure PMWorld where
  state : PMState
  storage : Option String
  calls : List BackendCall
  errors : List String
  feedback : List String
  logs : Nat
deriving Repr

/-- The JSON text persisted by `loadPlayerPuzzles`:
`JSON.stringify({playerId, puzzles})`. -/
def snapshotJson (playerId : String) (puzzles : List JSValue) : String :=
  jsonStringify (.vObj [("playerId", .vStr playerId), ("puzzles", .vArr puzzles)])

/-- Shallow embedding of `PuzzleManagerAPI.loadPlayerPuzzles`: fetch the
authoritative list, replace the in-memory list and the persisted snapshot; on
failure log and show the load-failure error view (the rejection does not
escape: the `catch` block ends the method). -/
def loadPlayerPuzzles (api : Backend) (w : PMWorld) : PMWorld :=
  let w1 := { w with calls := w.calls ++ [BackendCall.getPlayerPuzzles api.playerId] }
  match api.getPlayerPuzzlesResult with
  | .ok puzzles =>
      { w1 with
          state := { w1.state with playerPuzzles := puzzles },
          storage := some (snapshotJson api.playerId puzzles) }
  | .error _ =>
      { w1 with
          logs := w1.logs + 1,
          errors := w1.errors ++ ["퍼즐 데이터를 불러오는데 실패했습니다."] }

/-- The guard of `initializePuzzles` on a parsed snapshot:
`savedData.playerId === gameAPI.getPlayerId() && Array.isArray(savedData.puzzles)`. -/
def snapshotUsable (savedData : JSValue) (currentPlayerId : String) : Bool :=
  (match jsGetField savedData "playerId" with
   | .vStr p => p == currentPlayerId
   | _ => false)
  && jsIsArray (jsGetField savedData "puzzles")

/-- Shallow embedding of `PuzzleManagerAPI.initializePuzzles`: restore the
persisted snapshot when it parses, belongs to the current player and holds an
array; clear the persisted entry on a parse failure (logging it); in every
other case fetch from the server via `loadPlayerPuzzles`. -/
def initializePuzzles (api : Backend) (w : PMWorld) : PMWorld :=
  match w.storage with
  | some savedDataJSON =>
      if savedDataJSON = "" then loadPlayerPuzzles api w
      else
        match jsonParse savedDataJSON with
        | some savedData =>
            if snapshotUsable savedData api.playerId then
              { w with
                  state := { w.state with
                    playerPuzzles := jsAsArray (jsGetField savedData "puzzles") } }
            else loadPlayerPuzzles api w
        | none =>
            loadPlayerPuzzles api { w with logs := w.logs + 1, storage := none }
  | none => loadPlayerPuzzles api w

/-- Shallow embedding of `PuzzleManagerAPI.completePuzzle`: delegate the
completion to the backend and, when it settles successfully, refresh the full
snapshot by `loadPlayerPuzzles`; when the delegation rejects, the `catch`
block only logs. -/
def completePuzzle (api : Backend) (w : PMWorld) (puzzleId : String) : PMWorld :=
  let w1 := { w with calls := w.calls ++ [BackendCall.completePuzzle api.playerId puzzleId] }
  match api.completeResult puzzleId with
  | .ok _ => loadPlayerPuzzles api w1
  | .error _ => { w1 with logs := w1.logs + 1 }

/-- The message `showFeedback` receives on a wrong answer:
`response.message || '정답이 아닙니다.'`. -/
def wrongAnswerFeedback (response : JSValue) : String :=
  if jsTruthy (jsGetField response "message") then
    jsToString (jsGetField response "message")
  else "정답이 아닙니다."

/-- Shallow embedding of `PuzzleManagerAPI.checkAnswer`: nothing happens
without a current puzzle; the input is lowercased and trimmed, submitted to
the backend; a response with truthy `success` presents the correct-answer
view (content set to the success message, input hidden, button relabelled
`다음`) and runs `completePuzzle`; a falsy `success` shows inline feedback
(which clears the input); a rejected submission logs and shows the
answer-check error view. -/
def checkAnswer (api : Backend) (w : PMWorld) : PMWorld :=
  match w.state.currentPuzzleId with
  | none => w
  | some pid =>
      let userAnswer := normalizeAnswer w.state.puzzleInputValue
      let w1 := { w with
        calls := w.calls ++ [BackendCall.submitPuzzleAnswer api.playerId pid userAnswer] }
      match api.submitResult pid userAnswer with
      | .error _ =>
          { w1 with
              logs := w1.logs + 1,
              errors := w1.errors ++ ["정답 확인 중 오류가 발생했습니다."] }
      | .ok response =>
          if jsTruthy (jsGetField response "success") then
            let w2 := { w1 with
              state := { w1.state with
                puzzleContentHTML :=
                  "<p style=\"color: #00ff00;\">✅ " ++
                    jsToString (jsGetField response "message") ++ "</p>",
                puzzleInputVisible := false,
                submitBtnLabel := "다음" } }
            completePuzzle api w2 pid
          else
            { w1 with
                state := { w1.state with puzzleInputValue := "" },
                feedback := w1.feedback ++ [wrongAnswerFeedback response] }

/-- Shallow embedding of `PuzzleManagerAPI.hide`: remove the modal's `show`
class and clear the current puzzle id. -/
def hide (w : PMWorld) : PMWorld :=
  { w with state := { w.state with modalShown := false, currentPuzzleId := none } }

/-- Following the spec's description of the Resolved state of the session
controller: the correct-answer view is presented — the answer input is hidden
and the submit button has become the continuation (`다음`) trigger. -/
def specResolved (st : PMState) : Bool :=
  st.puzzleInputVisible = false && st.submitBtnLabel = "다음"

/-- Following the spec's description of the Idle state of the session
controller: no current puzzle id. -/
def specIdle (st : PMState) : Prop :=
  st.currentPuzzleId = none

/-! ## Concrete environments used by the witnesses -/

/-- A quiescent world: the constructor's initial state, nothing persisted,
no effects recorded yet. -/
def pmWorld0 : PMWorld :=
  { state := { currentPuzzleId := none, playerPuzzles := [],
               puzzleInputValue := "", puzzleContentHTML := "",
               puzzleInputVisible := true, submitBtnLabel := "\uc81c\ucd9c",
               modalShown := false },
    storage := none, calls := [], errors := [], feedback := [], logs := 0 }

/-- A backend whose every operation succeeds; the authoritative list holds
one puzzle, and only the answer `cat` is accepted. -/
def okBackend : Backend :=
  { playerId := "p1",
    getPlayerPuzzlesResult :=
      .ok [.vObj [("id", .vStr "door"), ("isCompleted", .vBool true)]],
    submitResult := fun _ answer =>
      if answer = "cat" then
        .ok (.vObj [("success", .vBool true), ("message", .vStr "Correct!")])
      else
        .ok (.vObj [("success", .vBool false), ("message", .vStr "wrong")]),
    completeResult := fun _ => .ok (.vObj [("success", .vBool true)]) }

/-- A backend rejecting every operation with a network-level failure. -/
def downBackend : Backend :=
  { playerId := "p1",
    getPlayerPuzzlesResult := .error (.vError "Failed to fetch"),
    submitResult := fun _ _ => .error (.vError "Failed to fetch"),
    completeResult := fun _ => .error (.vError "Failed to fetch") }

/-- A backend where only the completion delegation fails. -/
def completionFailureBackend : Backend :=
  { okBackend with completeResult := fun _ => .error (.vError "Failed to fetch") }

/-- The persisted snapshot text the witnesses start from: owner `p1`, one
puzzle record. -/
def snapshotText : String :=
  "\x7b\"playerId\":\"p1\",\"puzzles\":[\x7b\"id\":\"door\"\x7d]\x7d"

/-! ## Claims about the native bridge -/

/-- A name is never a member of a list filtered on being different from it. -/
theorem not_mem_filter_ne_self (a : String) (l : List String) :
    a ∉ l.filter (fun n => n != a) := by
  intro h
  have hp := List.of_mem_filter h
  simp at hp

/-- C1: for every bridge invocation that settles — native callback with a
success result, native callback with an error, or a synchronous throw of the
native call — the one-shot global callback registered under the call's
correlation token was registered, the cleanup `delete` ran exactly once, and
the token is absent from the global namespace after settlement. -/
theorem bridge_correlation_record_removed (env : BridgeEnv)
    (native : NativeBehavior) (window0 : List String) (methodName : String)
    (args : List JSValue) (now : Nat)
    (hav : bridgeAvailable env methodName = true) :
    (apiBridge_request env native window0 methodName args now).registered = true ∧
    (apiBridge_request env native window0 methodName args now).deleteCount = 1 ∧
    bridgeCallbackName methodName now ∉
      (apiBridge_request env native window0 methodName args now).windowAfter := by
  unfold apiBridge_request
  rw [hav]
  cases native <;>
    exact ⟨rfl, rfl, not_mem_filter_ne_self _ _⟩

/-- Witness for C1 at a concrete call: the bridge exposes `getGameInfo`, the
native side reports an error, and the minted callback token is gone
afterwards. -/
theorem bridge_correlation_record_removed_witness :
    bridgeAvailable ⟨true, ["getGameInfo"]⟩ "getGameInfo" = true ∧
    bridgeCallbackName "getGameInfo" 7 ∉
      (apiBridge_request ⟨true, ["getGameInfo"]⟩
        (.callsBack .vNull (.vStr "fail")) [] "getGameInfo" [] 7).windowAfter :=
  ⟨by decide,
   (bridge_correlation_record_removed ⟨true, ["getGameInfo"]⟩
      (.callsBack .vNull (.vStr "fail")) [] "getGameInfo" [] 7 (by decide)).2.2⟩

/-- C2: when the bridge object is absent or the named operation is not a
callable member, the call rejects with the descriptive message (which
mentions the operation name), registers no global callback, leaves the
namespace untouched and never invokes the native side. -/
theorem bridge_unavailable_rejects (env : BridgeEnv) (native : NativeBehavior)
    (window0 : List String) (methodName : String) (args : List JSValue)
    (now : Nat) (hun : bridgeAvailable env methodName = false) :
    (apiBridge_request env native window0 methodName args now).result
      = .rejectedWith (.vError (bridgeMissingMessage methodName)) ∧
    (apiBridge_request env native window0 methodName args now).registered = false ∧
    (apiBridge_request env native window0 methodName args now).windowAfter = window0 ∧
    (apiBridge_request env native window0 methodName args now).forwarded = none ∧
    methodName.toList <:+: (bridgeMissingMessage methodName).toList := by
  unfold apiBridge_request
  rw [hun]
  refine ⟨rfl, rfl, rfl, rfl, ?_⟩
  exact ⟨("native 브릿지(window.Android) 또는 \x27").toList,
         ("\x27 메소드를 찾을 수 없습니다. PC 웹 환경에서는 작동하지 않습니다.").toList,
         rfl⟩

/-- Witness for C2: a fake bridge exposing nothing rejects `getGameInfo`
without registering anything. -/
theorem bridge_unavailable_rejects_witness :
    bridgeAvailable ⟨true, []⟩ "getGameInfo" = false ∧
    ((apiBridge_request ⟨true, []⟩ (.callsBack .vNull .vNull) [] "getGameInfo" [] 0).result
      = .rejectedWith (.vError (bridgeMissingMessage "getGameInfo")) ∧
     (apiBridge_request ⟨true, []⟩ (.callsBack .vNull .vNull) [] "getGameInfo" [] 0).registered = false ∧
     (apiBridge_request ⟨true, []⟩ (.callsBack .vNull .vNull) [] "getGameInfo" [] 0).windowAfter = [] ∧
     (apiBridge_request ⟨true, []⟩ (.callsBack .vNull .vNull) [] "getGameInfo" [] 0).forwarded = none ∧
     "getGameInfo".toList <:+: (bridgeMissingMessage "getGameInfo").toList) :=
  ⟨by decide,
   bridge_unavailable_rejects ⟨true, []⟩ (.callsBack .vNull .vNull) []
     "getGameInfo" [] 0 (by decide)⟩

/-- C8: past the precondition, every object-typed argument is forwarded as
its textual-JSON encoding, every other argument unchanged, and the freshly
minted callback token is appended as the final argument of the native call. -/
theorem bridge_serializes_arguments (env : BridgeEnv) (native : NativeBehavior)
    (window0 : List String) (methodName : String) (args : List JSValue)
    (now : Nat) (hav : bridgeAvailable env methodName = true) :
    (apiBridge_request env native window0 methodName args now).forwarded
      = some (args.map (fun arg =>
          if isObjectNonNull arg then .vStr (jsonStringify arg) else arg)
          ++ [.vStr (bridgeCallbackName methodName now)]) := by
  unfold apiBridge_request serializeBridgeArg
  rw [hav]
  cases native <;> rfl

/-- Witness for C8: an object argument goes out as its JSON text, a number
and null go out unchanged, and the token closes the argument list. -/
theorem bridge_serializes_arguments_witness :
    bridgeAvailable ⟨true, ["submitPuzzleAnswer"]⟩ "submitPuzzleAnswer" = true ∧
    (apiBridge_request ⟨true, ["submitPuzzleAnswer"]⟩ (.callsBack .vNull .vNull) []
        "submitPuzzleAnswer" [.vObj [("answer", .vStr "cat")], .vNum 3, .vNull] 42).forwarded
      = some [.vStr "\x7b\"answer\":\"cat\"\x7d", .vNum 3, .vNull,
              .vStr "__native_callback_submitPuzzleAnswer_42"] :=
  ⟨by decide,
   bridge_serializes_arguments ⟨true, ["submitPuzzleAnswer"]⟩
     (.callsBack .vNull .vNull) [] "submitPuzzleAnswer"
     [.vObj [("answer", .vStr "cat")], .vNum 3, .vNull] 42 (by decide)⟩

/-- C10: the registered callback resolves the call whenever the native side
passes any falsy error (empty string, 0, null, undefined alike), and takes
the rejection branch — with its attempt to parse the error as JSON — exactly
when the error is truthy. -/
theorem bridge_falsy_error_resolves (env : BridgeEnv) (window0 : List String)
    (methodName : String) (args : List JSValue) (now : Nat)
    (result error : JSValue) (hav : bridgeAvailable env methodName = true) :
    (jsTruthy error = false →
      (apiBridge_request env (.callsBack result error) window0 methodName args now).result
        = .resolvedWith result) ∧
    (jsTruthy error = true →
      (apiBridge_request env (.callsBack result error) window0 methodName args now).result
        = .rejectedWith (nativeErrorPayload error)) := by
  unfold apiBridge_request
  rw [hav]
  constructor <;> intro h <;> simp [h]

/-- Witness for C10: with the empty string as error the call resolves with
the result value. -/
theorem bridge_falsy_error_resolves_witness :
    bridgeAvailable ⟨true, ["getGameInfo"]⟩ "getGameInfo" = true ∧
    jsTruthy (.vStr "") = false ∧
    (apiBridge_request ⟨true, ["getGameInfo"]⟩
        (.callsBack (.vStr "data") (.vStr "")) [] "getGameInfo" [] 5).result
      = .resolvedWith (.vStr "data") :=
  ⟨by decide, by decide,
   (bridge_falsy_error_resolves ⟨true, ["getGameInfo"]⟩ [] "getGameInfo" [] 5
     (.vStr "data") (.vStr "") (by decide)).1 (by decide)⟩

/-! ## Claims about the HTTP transport path -/

/-- C4: on the HTTP transport path a non-success status rejects with a
failure whose message carries the response's status code and body text, and a
success status resolves with the body parsed as structured JSON. -/
theorem http_transport_status_handling (r : HttpResponse) :
    (r.respOk = false →
      gameAPI_fetchRequest (.response r)
        = .error (.vError (httpErrorMessage r.status r.bodyText)) ∧
      (toString r.status).toList <:+: (httpErrorMessage r.status r.bodyText).toList ∧
      r.bodyText.toList <:+: (httpErrorMessage r.status r.bodyText).toList) ∧
    (∀ parsed, r.respOk = true → jsonParse r.bodyText = some parsed →
      gameAPI_fetchRequest (.response r) = .ok parsed) := by
  constructor
  · intro hok
    refine ⟨?_, ?_, ?_⟩
    · simp [gameAPI_fetchRequest, hok]
    · exact ⟨("HTTP error! status: ").toList,
             (", message: " ++ r.bodyText).toList,
             by simp [httpErrorMessage, List.append_assoc]⟩
    · exact ⟨("HTTP error! status: " ++ toString r.status ++ ", message: ").toList,
             [], by simp [httpErrorMessage]⟩
  · intro parsed hok hparse
    simp [gameAPI_fetchRequest, hok, hparse]

/-- Witness for C4: a 500 response with body `boom` yields a rejection whose
message is exactly `HTTP error! status: 500, message: boom`. -/
theorem http_transport_status_handling_witness :
    HttpResponse.respOk ⟨500, "boom"⟩ = false ∧
    gameAPI_fetchRequest (.response ⟨500, "boom"⟩)
      = .error (.vError "HTTP error! status: 500, message: boom") :=
  ⟨by decide,
   ((http_transport_status_handling ⟨500, "boom"⟩).1 (by decide)).1⟩

/-! ## Claims about the puzzle state store -/

/-- C3: a persisted snapshot owned by player `P` holding a well-formed array
is restored verbatim — without any fetch — when the current identity is `P`;
under any other identity it is discarded: the store refreshes from the
authoritative source, the in-memory list becomes the fetched one (never the
stale player's), and the persisted snapshot is re-keyed to the current
player; if even the refresh fails, the stale list still never reaches
memory. -/
theorem snapshot_restore_requires_owner (api : Backend) (w : PMWorld)
    (savedData : JSValue) (P : String) (l : List JSValue) (s : String)
    (hs : w.storage = some s) (hne : s ≠ "")
    (hparse : jsonParse s = some savedData)
    (hP : jsGetField savedData "playerId" = .vStr P)
    (hl : jsGetField savedData "puzzles" = .vArr l) :
    (api.playerId = P →
      (initializePuzzles api w).state.playerPuzzles = l ∧
      (initializePuzzles api w).calls = w.calls ∧
      (initializePuzzles api w).storage = w.storage) ∧
    (api.playerId ≠ P →
      (initializePuzzles api w).calls
        = w.calls ++ [.getPlayerPuzzles api.playerId] ∧
      (∀ srv, api.getPlayerPuzzlesResult = .ok srv →
        (initializePuzzles api w).state.playerPuzzles = srv ∧
        (initializePuzzles api w).storage
          = some (snapshotJson api.playerId srv)) ∧
      (∀ e, api.getPlayerPuzzlesResult = .error e →
        (initializePuzzles api w).state.playerPuzzles
          = w.state.playerPuzzles)) := by
  constructor
  · intro hid
    subst hid
    have husable : snapshotUsable savedData api.playerId = true := by
      simp [snapshotUsable, hP, hl, jsIsArray]
    simp [initializePuzzles, hs, hne, hparse, husable, hl, jsAsArray]
  · intro hid
    have husable : snapshotUsable savedData api.playerId = false := by
      simp [snapshotUsable, hP, hl, jsIsArray]
      exact fun h => absurd h.symm hid
    rcases hfetch : api.getPlayerPuzzlesResult with srv | e <;>
      simp [initializePuzzles, hs, hne, hparse, husable, loadPlayerPuzzles, hfetch]

/-- Witness for C3: with owner identity `p1` current, the one persisted
puzzle record is restored verbatim and no backend call is made. -/
theorem snapshot_restore_requires_owner_witness :
    (initializePuzzles okBackend
        { pmWorld0 with storage := some snapshotText }).state.playerPuzzles
      = [.vObj [("id", .vStr "door")]] ∧
    (initializePuzzles okBackend
        { pmWorld0 with storage := some snapshotText }).calls = [] :=
  ⟨((snapshot_restore_requires_owner okBackend
      { pmWorld0 with storage := some snapshotText }
      (.vObj [("playerId", .vStr "p1"),
              ("puzzles", .vArr [.vObj [("id", .vStr "door")]])])
      "p1" [.vObj [("id", .vStr "door")]] snapshotText
      rfl (by decide) rfl rfl rfl).1 rfl).1,
   ((snapshot_restore_requires_owner okBackend
      { pmWorld0 with storage := some snapshotText }
      (.vObj [("playerId", .vStr "p1"),
              ("puzzles", .vArr [.vObj [("id", .vStr "door")]])])
      "p1" [.vObj [("id", .vStr "door")]] snapshotText
      rfl (by decide) rfl rfl rfl).1 rfl).2.1⟩

/-! ## Claims about the puzzle session controller -/

/-- C5: with an active puzzle session, the user's input is lowercased and
trimmed before being delegated to the backend, and a success response puts
the controller in the Resolved state and triggers completion reconciliation
(`completePuzzle` on the current puzzle, right after the submission). -/
theorem submitAnswer_normalizes_and_resolves (api : Backend) (w : PMWorld)
    (pid : String) (response : JSValue)
    (hcur : w.state.currentPuzzleId = some pid)
    (hresp : api.submitResult pid (normalizeAnswer w.state.puzzleInputValue)
      = .ok response)
    (hsucc : jsTruthy (jsGetField response "success") = true) :
    (∃ rest, (checkAnswer api w).calls
        = w.calls ++ BackendCall.submitPuzzleAnswer api.playerId pid
            (jsTrim (jsToLowerCase w.state.puzzleInputValue))
          :: BackendCall.completePuzzle api.playerId pid :: rest) ∧
    specResolved (checkAnswer api w).state = true := by
  simp only [checkAnswer, hcur, hresp, hsucc, if_true, completePuzzle,
    loadPlayerPuzzles]
  rcases hcomp : api.completeResult pid with e | v <;>
    simp only [hcomp]
  · exact ⟨⟨[], by simp [normalizeAnswer]⟩, rfl⟩
  · rcases hfetch : api.getPlayerPuzzlesResult with e2 | srv <;>
      simp only [hfetch]
    · exact ⟨⟨[.getPlayerPuzzles api.playerId], by simp [normalizeAnswer]⟩, rfl⟩
    · exact ⟨⟨[.getPlayerPuzzles api.playerId], by simp [normalizeAnswer]⟩, rfl⟩

/-- Witness for C5: submitting `"  CAT "` goes to the backend as `cat`, the
success response resolves the session and completion reconciliation runs. -/
theorem submitAnswer_normalizes_and_resolves_witness :
    normalizeAnswer "  CAT " = "cat" ∧
    ((∃ rest, (checkAnswer okBackend
        { pmWorld0 with state := { pmWorld0.state with
            currentPuzzleId := some "door", puzzleInputValue := "  CAT " } }).calls
        = [] ++ BackendCall.submitPuzzleAnswer "p1" "door"
            (jsTrim (jsToLowerCase "  CAT "))
          :: BackendCall.completePuzzle "p1" "door" :: rest) ∧
     specResolved (checkAnswer okBackend
        { pmWorld0 with state := { pmWorld0.state with
            currentPuzzleId := some "door", puzzleInputValue := "  CAT " } }).state
       = true) :=
  ⟨by decide,
   submitAnswer_normalizes_and_resolves okBackend
     { pmWorld0 with state := { pmWorld0.state with
         currentPuzzleId := some "door", puzzleInputValue := "  CAT " } }
     "door" (.vObj [("success", .vBool true), ("message", .vStr "Correct!")])
     rfl rfl (by decide)⟩

/-- C6 counterexample: a transport failure of the completion delegation is
not converted into a user-visible error view — `completePuzzle` on a backend
whose completion call rejects leaves the error-view list empty and merely
logs, even though the failed transport call was made. -/
theorem completePuzzle_swallows_transport_failure :
    completionFailureBackend.completeResult "door"
      = .error (.vError "Failed to fetch") ∧
    (completePuzzle completionFailureBackend pmWorld0 "door").errors = [] ∧
    (completePuzzle completionFailureBackend pmWorld0 "door").calls
      = [.completePuzzle "p1" "door"] ∧
    (completePuzzle completionFailureBackend pmWorld0 "door").logs = 1 :=
  ⟨rfl, rfl, rfl, rfl⟩

/-- C6 amended: transport failures of loading the puzzle list and of
submitting an answer are converted into a user-visible error view; a failure
of the completion delegation inside `completePuzzle` is only logged — the
catch block there, like the corruption recovery, is logging-only. -/
theorem transport_failures_error_view_policy :
    (∀ (api : Backend) (w : PMWorld) (e : JSValue),
      api.getPlayerPuzzlesResult = .error e →
      (loadPlayerPuzzles api w).errors
        = w.errors ++ ["퍼즐 데이터를 불러오는데 실패했습니다."] ∧
      (loadPlayerPuzzles api w).logs = w.logs + 1) ∧
    (∀ (api : Backend) (w : PMWorld) (pid : String) (e : JSValue),
      w.state.currentPuzzleId = some pid →
      api.submitResult pid (normalizeAnswer w.state.puzzleInputValue) = .error e →
      (checkAnswer api w).errors
        = w.errors ++ ["정답 확인 중 오류가 발생했습니다."]) ∧
    (∀ (api : Backend) (w : PMWorld) (pid : String) (e : JSValue),
      api.completeResult pid = .error e →
      (completePuzzle api w pid).errors = w.errors ∧
      (completePuzzle api w pid).logs = w.logs + 1) := by
  refine ⟨?_, ?_, ?_⟩
  · intro api w e hfetch
    simp [loadPlayerPuzzles, hfetch]
  · intro api w pid e hcur hsub
    simp [checkAnswer, hcur, hsub]
  · intro api w pid e hcomp
    simp [completePuzzle, hcomp]

/-- Witness for the amended C6 at concrete failing backends: the load and
submit paths surface an error view, the completion path only logs. -/
theorem transport_failures_error_view_policy_witness :
    ((loadPlayerPuzzles downBackend pmWorld0).errors
       = [] ++ ["퍼즐 데이터를 불러오는데 실패했습니다."] ∧
     (loadPlayerPuzzles downBackend pmWorld0).logs = 0 + 1) ∧
    (checkAnswer downBackend
        { pmWorld0 with state := { pmWorld0.state with
            currentPuzzleId := some "door" } }).errors
      = [] ++ ["정답 확인 중 오류가 발생했습니다."] ∧
    ((completePuzzle completionFailureBackend pmWorld0 "door").errors = [] ∧
     (completePuzzle completionFailureBackend pmWorld0 "door").logs = 0 + 1) :=
  ⟨transport_failures_error_view_policy.1 downBackend pmWorld0
     (.vError "Failed to fetch") rfl,
   transport_failures_error_view_policy.2.1 downBackend
     { pmWorld0 with state := { pmWorld0.state with
         currentPuzzleId := some "door" } }
     "door" (.vError "Failed to fetch") rfl rfl,
   transport_failures_error_view_policy.2.2 completionFailureBackend pmWorld0
     "door" (.vError "Failed to fetch") rfl⟩

/-- C7: when the completion delegation settles successfully — whatever value
it returns — `completePuzzle` follows it with a full refresh from the
authoritative source: the fetch call is issued right after the completion
call, and the new in-memory and persisted snapshot are exactly the fetched
list, independent of the previous local state. -/
theorem markCompleted_full_resync (api : Backend) (w : PMWorld)
    (puzzleId : String) (v : JSValue)
    (hok : api.completeResult puzzleId = .ok v) :
    (completePuzzle api w puzzleId).calls
      = w.calls ++ [.completePuzzle api.playerId puzzleId,
                    .getPlayerPuzzles api.playerId] ∧
    (∀ srv, api.getPlayerPuzzlesResult = .ok srv →
      (completePuzzle api w puzzleId).state.playerPuzzles = srv ∧
      (completePuzzle api w puzzleId).storage
        = some (snapshotJson api.playerId srv)) := by
  simp only [completePuzzle, hok, loadPlayerPuzzles]
  rcases hfetch : api.getPlayerPuzzlesResult with e | srv <;>
    simp [hfetch]

/-- Witness for C7: after a successful completion of `door` the snapshot in
memory and in storage is the freshly fetched authoritative list. -/
theorem markCompleted_full_resync_witness :
    (completePuzzle okBackend pmWorld0 "door").calls
      = [] ++ [.completePuzzle "p1" "door", .getPlayerPuzzles "p1"] ∧
    (completePuzzle okBackend pmWorld0 "door").state.playerPuzzles
      = [.vObj [("id", .vStr "door"), ("isCompleted", .vBool true)]] ∧
    (completePuzzle okBackend pmWorld0 "door").storage
      = some (snapshotJson "p1"
          [.vObj [("id", .vStr "door"), ("isCompleted", .vBool true)]]) :=
  ⟨(markCompleted_full_resync okBackend pmWorld0 "door"
      (.vObj [("success", .vBool true)]) rfl).1,
   ((markCompleted_full_resync okBackend pmWorld0 "door"
      (.vObj [("success", .vBool true)]) rfl).2
      [.vObj [("id", .vStr "door"), ("isCompleted", .vBool true)]] rfl).1,
   ((markCompleted_full_resync okBackend pmWorld0 "door"
      (.vObj [("success", .vBool true)]) rfl).2
      [.vObj [("id", .vStr "door"), ("isCompleted", .vBool true)]] rfl).2⟩

/-- C9: `hide` always leaves the controller Idle — no current puzzle id —
whatever the starting state; it is idempotent, and it performs no transport
calls. -/
theorem dismiss_idle_idempotent (w : PMWorld) :
    specIdle (hide w).state ∧
    hide (hide w) = hide w ∧
    (hide w).calls = w.calls :=
  ⟨rfl, rfl, rfl⟩

/-- Witness for C9 on a concrete non-Idle world. -/
theorem dismiss_idle_idempotent_witness :
    specIdle (hide { pmWorld0 with state := { pmWorld0.state with
        currentPuzzleId := some "door", modalShown := true } }).state ∧
    hide (hide { pmWorld0 with state := { pmWorld0.state with
        currentPuzzleId := some "door", modalShown := true } })
      = hide { pmWorld0 with state := { pmWorld0.state with
          currentPuzzleId := some "door", modalShown := true } } ∧
    (hide { pmWorld0 with state := { pmWorld0.state with
        currentPuzzleId := some "door", modalShown := true } }).calls = [] :=
  dismiss_idle_idempotent { pmWorld0 with state := { pmWorld0.state with
      currentPuzzleId := some "door", modalShown := true } }
